import Mathlib

/-
Verification development for the hevy-app-optimizer backend.

The backend is a FastAPI chat service (backend/app) whose core is the
intent-driven dialogue pipeline: the chat router (routers/chat.py), the
AIWorkoutOptimizer service (services/ai_workout_optimizer.py) with its
two-phase exercise-swap protocol and class-level template cache, the
IntentService (services/intent_service.py) and the HevyAPI pagination
wrappers (services/hevy_api.py).

Python values flowing through this code are JSON-like dictionaries; they
are embedded below as the inductive type JVal, with association lists for
dictionaries (keys are unique in every value the code builds).  Remote
calls (the Hevy HTTP API, the OpenAI completion endpoint) are modelled as
oracle parameters; raised exceptions are modelled with Except.  ASCII
strings are assumed throughout (the Python code only manipulates ASCII
identifiers, titles and keyword patterns in the logic modelled here).
-/

/-- Python/JSON value as manipulated by the backend: None, str, int/float
(collapsed to Int; no claim depends on fractional weights), bool, list and
dict.  A dict is an association list with unique keys. -/
inductive JVal where
  | null
  | str (s : String)
  | num (n : Int)
  | bool (b : Bool)
  | arr (xs : List JVal)
  | obj (kvs : List (String × JVal))

/-- Python dictionary with JSON-like values. -/
abbrev Dict := List (String × JVal)

mutual

/-- Structural equality of values, mirroring the Python == used on
dictionary values (titles, muscle groups, ids). -/
def JVal.beq : JVal → JVal → Bool
  | .null, .null => true
  | .str a, .str b => a == b
  | .num a, .num b => a == b
  | .bool a, .bool b => a == b
  | .arr a, .arr b => JVal.beqList a b
  | .obj a, .obj b => JVal.beqObj a b
  | _, _ => false

/-- Elementwise equality of value lists. -/
def JVal.beqList : List JVal → List JVal → Bool
  | [], [] => true
  | x :: xs, y :: ys => JVal.beq x y && JVal.beqList xs ys
  | _, _ => false

/-- Entrywise equality of dictionaries (Python dicts compare by content;
the code never reorders keys, so ordered comparison is faithful here). -/
def JVal.beqObj : List (String × JVal) → List (String × JVal) → Bool
  | [], [] => true
  | (k1, v1) :: xs, (k2, v2) :: ys => k1 == k2 && JVal.beq v1 v2 && JVal.beqObj xs ys
  | _, _ => false

end

instance : BEq JVal := ⟨JVal.beq⟩

/-- Python truthiness of a value: None, empty string, zero, False and
empty containers are falsy. -/
def truthy : JVal → Bool
  | .null => false
  | .str s => !(s == "")
  | .num n => !(n == 0)
  | .bool b => b
  | .arr xs => !xs.isEmpty
  | .obj kvs => !kvs.isEmpty

/-- Lookup of a key in a dictionary (keys are unique, so the first hit is
the only one). -/
def dLookup (d : Dict) (k : String) : Option JVal :=
  match d with
  | [] => none
  | (k1, v) :: rest => if k1 == k then some v else dLookup rest k

/-- Python `d.get(k)`: the stored value, or None when the key is absent. -/
def dgetV (d : Dict) (k : String) : JVal :=
  (dLookup d k).getD .null

/-- Python `d.get(k, default)`: the stored value when the key is present
(even when that value is None), otherwise the default. -/
def dgetD (d : Dict) (k : String) (dft : JVal) : JVal :=
  (dLookup d k).getD dft

/-- Python `d.pop(k, None)` as used on exercise entries: the dictionary
with the key removed (keys are unique; removing every occurrence is the
same as removing the first). -/
def dictPop (d : Dict) (k : String) : Dict :=
  d.filter (fun kv => !(kv.1 == k))

/-- Truthiness of the class-level template cache, an
`Optional[List[Dict]]`: `if not cached_templates` is taken both when the
cache is None (never loaded) and when it is the empty-list sentinel. -/
def cacheTruthy : Option (List Dict) → Bool
  | none => false
  | some l => !l.isEmpty

/-- Membership test for a character list as a leading segment of another,
used to build the substring check below. -/
def beginsWith : List Char → List Char → Bool
  | [], _ => true
  | _ :: _, [] => false
  | a :: as, b :: bs => (a == b) && beginsWith as bs

/-- Python `needle in hay` on strings (character lists): the needle occurs
as a contiguous segment. -/
def containsSub (needle : List Char) : List Char → Bool
  | [] => beginsWith needle []
  | c :: t => beginsWith needle (c :: t) || containsSub needle t

/-- Python `str.strip()`: whitespace removed from both ends. -/
def pyStrip (cs : List Char) : List Char :=
  ((cs.dropWhile Char.isWhitespace).reverse.dropWhile Char.isWhitespace).reverse

/-- Character class of the capture group in the choice pattern
`(?:use|with|go with|choose|select)\s+([\w\s\(\)-]+)` shared by
chat.py (line 54) and ai_workout_optimizer.py (line 582): word characters,
whitespace, brackets and hyphen (ASCII reading of \w). -/
def pyClassChar (c : Char) : Bool :=
  c.isAlphanum || c == '_' || c.isWhitespace || c == '(' || c == ')' || c == '-'

/-- Case-insensitive removal of a lowercase verb from the front of the
text; yields the remainder on success. -/
def dropCi : List Char → List Char → Option (List Char)
  | [], s => some s
  | _ :: _, [] => none
  | v :: vs, c :: cs => if c.toLower == v then dropCi vs cs else none

/-- Alternatives of the choice pattern, in the order the alternation tries
them at each position. -/
def choiceVerbs : List (List Char) :=
  ["use".data, "with".data, "go with".data, "choose".data, "select".data]

/-- Attempted match of one verb alternative at the current position,
followed by `\s+` and the greedy capture `([\w\s\(\)-]+)`.  The regex
semantics: after the verb there must be a whitespace character and the
maximal run of class characters (which include whitespace) must have
length at least two — one consumed by `\s+`, one left for the capture.
The capture is the class run after the maximal whitespace prefix; when
that run is empty the engine backtracks `\s+` by one character and the
capture is that single whitespace character.  The caller strips the
capture, mirroring `.group(1).strip()`. -/
def verbAt (s : List Char) (verb : List Char) : Option String :=
  match dropCi verb s with
  | none => none
  | some rest =>
    match rest with
    | [] => none
    | r0 :: _ =>
      if r0.isWhitespace && decide (2 ≤ (rest.takeWhile pyClassChar).length) then
        let w := rest.takeWhile Char.isWhitespace
        let cpart := (rest.drop w.length).takeWhile pyClassChar
        let grp := if cpart.isEmpty then [w.getLastD ' '] else cpart
        some (String.mk (pyStrip grp))
      else none

/-- First verb alternative that matches at the current position. -/
def firstVerbMatch : List (List Char) → List Char → Option String
  | [], _ => none
  | v :: vs, s =>
    match verbAt s v with
    | some g => some g
    | none => firstVerbMatch vs s

/-- Leftmost-position scan of `re.search`: positions are tried left to
right, alternatives in pattern order at each position. -/
def scanChoice : List Char → Option String
  | [] => none
  | c :: rest =>
    match firstVerbMatch choiceVerbs (c :: rest) with
    | some g => some g
    | none => scanChoice rest

/-- Model of
`re.search(r"(?:use|with|go with|choose|select)\s+([\w\s\(\)-]+)", message,
re.IGNORECASE)` followed by `.group(1).strip()`, the fallback extraction of
a chosen alternative (chat.py lines 53-56, ai_workout_optimizer.py lines
579-585).  Returns the stripped capture (possibly empty) when the pattern
matches. -/
def regexExtractChoice (msg : String) : Option String :=
  scanChoice msg.data

/-- Outcome of extracting a chosen alternative from the user message:
a suggestion-name or regex hit, no hit, or a raised AttributeError (a
truthy non-string suggestion name has no `.lower()`). -/
inductive Extract where
  | err
  | notFound
  | found (s : String)

/-- Python `str.lower()` on the character list of an ASCII string. -/
def lowerChars (cs : List Char) : List Char :=
  cs.map Char.toLower

/-- Loop over the stored suggestions: the first suggestion whose name is
truthy and occurs (lowercased) inside the lowercased message is chosen
(chat.py lines 47-51, ai_workout_optimizer.py lines 572-577). -/
def suggChoiceMatch (msgLower : List Char) : List Dict → Extract
  | [] => .notFound
  | d :: rest =>
    match dgetV d "name" with
    | .str s => if !(s == "") && containsSub (lowerChars s.data) msgLower then .found s else suggChoiceMatch msgLower rest
    | v => if truthy v then .err else suggChoiceMatch msgLower rest

/-- Full extraction of the chosen alternative: suggestion-name substring
match first, then the choice-verb regex fallback.  This logic is
duplicated verbatim between the router pre-check and the implement
handler, so both are modelled by this one function. -/
def extractChoice (suggestions : List Dict) (msg : String) : Extract :=
  match suggChoiceMatch (lowerChars msg.data) suggestions with
  | .found s => .found s
  | .err => .err
  | .notFound =>
    match regexExtractChoice msg with
    | some s => .found s
    | none => .notFound

/-- PendingSwapContext as built at ai_workout_optimizer.py lines 529-537.
Every context the code stores has exactly these keys, so a structure is a
faithful model; fields keep the dictionary key names. -/
structure PendingSwap where
  type : String
  routine_id : JVal
  routine_name : JVal
  exercise_to_swap_title : JVal
  suggestions : List Dict
  current_exercises : JVal

/-- Prompts passed to get_chat_response, one constructor per formatted
string in the source; each constructor carries exactly the values
interpolated into that f-string.  The surrounding fixed prose is not
needed by any claim and is left in the source. -/
inductive ChatPrompt where
  | swapNameMissing
  | cacheEmptyPropose (exercise : String)
  | swapSuggestions (exercise : String) (routineName : JVal) (muscle : JVal) (shown : List Dict)
  | swapNoAlternatives (exercise : String) (muscle : JVal) (routineName : JVal)
  | swapUnknownExercise (exercise : String) (routineName : JVal)
  | noPendingSwap
  | choiceUnclear (message : String)
  | swapDetailsLost
  | cacheEmptyImplement (chosen : String)
  | chosenNotInCache (chosen : String)
  | chosenMissingId (chosen : String)
  | swapTargetMissing (exercise : JVal) (routineName : JVal)
  | updateFailed (routineName : JVal) (exercise : JVal) (chosen : String)
  | swapDone (routineName : JVal) (exercise : JVal) (chosen : String)
  | modNotImplemented (intent : String) (message : String)
  | infoQuery (intent : String) (message : String)
  | analysisQuery (intent : String) (message : String)
  | programAnalysisQuery (message : String)

/-- Call to HevyAPI.update_routine(routine_id, update_payload): the id and
the payload dictionary built at lines 677-682. -/
structure WriteCall where
  routine_id : JVal
  payload : Dict

/-- Result of one get_modification_response branch: the prompt handed to
get_chat_response, the pending context left behind, and the routine writes
issued (in order). -/
structure ModOut where
  prompt : ChatPrompt
  pending : Option PendingSwap
  writes : List WriteCall

/-- One empty "normal" set of the replacement exercise (lines 658-660). -/
def normalSet : JVal :=
  .obj [("type", .str "normal"), ("weight_kg", .null), ("reps", .null)]

/-- Replacement exercise object built at lines 652-662: the chosen title,
default notes, the chosen template id, no superset, and exactly three
empty normal sets. -/
def newExercise (chosen : String) (templateId : JVal) : JVal :=
  .obj [("title", .str chosen), ("notes", .null),
        ("exercise_template_id", templateId), ("superset_id", .null),
        ("sets", .arr [normalSet, normalSet, normalSet])]

/-- Loop at lines 647-667 building the updated exercise list from the
snapshot: an entry whose title equals the stored swap title is replaced by
the new exercise, any other entry is kept with its transient index field
removed.  The flag records whether any replacement happened
(swap_performed).  A non-dictionary entry raises (`.get` on it fails) and
is caught by the surrounding except handler. -/
def buildUpdated (swapTitle : JVal) (chosen : String) (templateId : JVal) :
    List JVal → Except Unit (List JVal × Bool)
  | [] => .ok ([], false)
  | e :: rest =>
    match e with
    | .obj d =>
      match buildUpdated swapTitle chosen templateId rest with
      | .error u => .error u
      | .ok (tail, b) =>
        if dgetV d "title" == swapTitle then
          .ok (newExercise chosen templateId :: tail, true)
        else
          .ok (.obj (dictPop d "index") :: tail, b)
    | _ => .error ()

/-- SUGGESTION_IMPLEMENT branch of get_modification_response (lines
548-709).  Inputs: the user message, the class-level template cache, the
pending context at entry, and whether the update_routine call raises
(oracle for the remote write).  The branch always finishes with one
get_chat_response call on the returned prompt.

Control flow mirrored from the source:
- no live EXERCISE_SWAP context (554-558): explanatory prompt, context
  cleared;
- choice extraction failure (586-590): clarification prompt, context
  deliberately preserved (this return sits before the try block);
- missing routine id / swap title / chosen title (593-597): context
  cleared;
- everything from line 601 on sits in a try with `finally:
  self.pending_swap_context = None`, so every remaining branch — cache
  empty (605-608), chosen title not in cache (615-618), missing template
  id (622-626), snapshot not a list (637-639, raises into the except
  handler), stale snapshot (670-674), write failure (693-698) and success
  — ends with the pending context cleared: a return inside try still runs
  the finally block. -/
def implementSwap (msg : String) (cache : Option (List Dict))
    (pending0 : Option PendingSwap) (writeFails : Bool) : Except Unit ModOut :=
  match pending0 with
  | none => .ok ⟨.noPendingSwap, none, []⟩
  | some p =>
    if !(p.type == "EXERCISE_SWAP") then .ok ⟨.noPendingSwap, none, []⟩
    else
      match extractChoice p.suggestions msg with
      | .err => .error ()
      | .notFound => .ok ⟨.choiceUnclear msg, some p, []⟩
      | .found chosen =>
        if !(truthy p.routine_id && truthy p.exercise_to_swap_title && !(chosen == "")) then
          .ok ⟨.swapDetailsLost, none, []⟩
        else if !(cacheTruthy cache) then
          .ok ⟨.cacheEmptyImplement chosen, none, []⟩
        else
          match (cache.getD []).find? (fun t => dgetV t "title" == .str chosen) with
          | none => .ok ⟨.chosenNotInCache chosen, none, []⟩
          | some tmpl =>
            let templateId := dgetV tmpl "id"
            if !(truthy templateId) then .ok ⟨.chosenMissingId chosen, none, []⟩
            else
              match p.current_exercises with
              | .arr exs =>
                match buildUpdated p.exercise_to_swap_title chosen templateId exs with
                | .error _ =>
                  .ok ⟨.updateFailed p.routine_name p.exercise_to_swap_title chosen, none, []⟩
                | .ok (updated, swapped) =>
                  if !swapped then
                    .ok ⟨.swapTargetMissing p.exercise_to_swap_title p.routine_name, none, []⟩
                  else
                    let w : WriteCall :=
                      ⟨p.routine_id,
                       [("routine", .obj [("title", p.routine_name),
                                          ("exercises", .arr updated)])]⟩
                    if writeFails then
                      .ok ⟨.updateFailed p.routine_name p.exercise_to_swap_title chosen, none, [w]⟩
                    else
                      .ok ⟨.swapDone p.routine_name p.exercise_to_swap_title chosen, none, [w]⟩
              | _ =>
                .ok ⟨.updateFailed p.routine_name p.exercise_to_swap_title chosen, none, []⟩

/-- EXERCISE_SWAP branch of get_modification_response (lines 448-546):
the propose phase.  Inputs mirror the two context reads
`context.get("exercise_name")` (an optional extracted string) and
`context.get("target_routine_details")` (an optional routine dictionary).
The branch always finishes with one get_chat_response call.

- missing exercise name (455-459): prompt only, pending context untouched;
- empty or unloaded cache (468-472): prompt only, pending context
  untouched;
- otherwise the muscle group of the first cache entry with the given
  title is looked up (475-479), same-muscle alternatives excluding that
  title are collected in cache order (482-491), at most five are shown
  (499-500), and the pending context is stored only when the target
  routine details, the exercise name and the candidate list are all
  truthy (528-542) — in every other case it is cleared. -/
def proposeSwap (exerciseName : Option String) (target : Option Dict)
    (cache : Option (List Dict)) (pending0 : Option PendingSwap) : ModOut :=
  let nameTruthy := match exerciseName with
    | some s => !(s == "")
    | none => false
  let targetTruthy := match target with
    | some d => !d.isEmpty
    | none => false
  let routineName : JVal :=
    if targetTruthy then dgetD (target.getD []) "title" (.str "the routine")
    else .str "the routine"
  if !nameTruthy then ⟨.swapNameMissing, pending0, []⟩
  else
    let name := exerciseName.getD ""
    if !(cacheTruthy cache) then ⟨.cacheEmptyPropose name, pending0, []⟩
    else
      let ts := cache.getD []
      let muscle : JVal :=
        match ts.find? (fun t => dgetV t "title" == .str name) with
        | some t => dgetV t "primary_muscle_group"
        | none => .null
      let swaps : List Dict :=
        if truthy muscle then
          (ts.filter (fun t =>
            dgetV t "primary_muscle_group" == muscle && !(dgetV t "title" == .str name))).map
            (fun t => [("name", dgetV t "title"), ("id", dgetV t "id"),
                       ("muscles", dgetV t "primary_muscle_group")])
        else []
      let shown := swaps.take 5
      let prompt : ChatPrompt :=
        if !swaps.isEmpty then .swapSuggestions name routineName muscle shown
        else if truthy muscle then .swapNoAlternatives name muscle routineName
        else .swapUnknownExercise name routineName
      let pending1 : Option PendingSwap :=
        if targetTruthy && !swaps.isEmpty then
          some ⟨"EXERCISE_SWAP", dgetV (target.getD []) "id", routineName,
                .str name, shown, dgetD (target.getD []) "exercises" (.arr [])⟩
        else none
      ⟨prompt, pending1, []⟩

/-- AIWorkoutOptimizer.load_templates_cache (lines 37-51): the fetch (an
oracle for get_all_exercise_templates, which can raise) runs only when the
class cache is None; a successful fetch stores its result, a failure
stores the empty-list sentinel, and any already-set cache value — the
sentinel included — is left unchanged. -/
def loadTemplatesCache (fetch : Except Unit (List Dict))
    (cache : Option (List Dict)) : Option (List Dict) :=
  match cache with
  | none =>
    match fetch with
    | .ok ts => some ts
    | .error _ => some []
  | some c => some c

/-- Content of a conversation-history entry: either plain text (the user
message and assistant replies appended by the router) or a constructed
prompt (appended by get_chat_response for the message it sends). -/
inductive Content where
  | text (s : String)
  | prompt (p : ChatPrompt)

/-- One entry of AIWorkoutOptimizer.conversation_history. -/
structure ChatEntry where
  role : String
  content : Content

/-- State held by the AIWorkoutOptimizer instance: the pending-swap slot,
the conversation history, and the class-level template cache. -/
structure TurnState where
  pending : Option PendingSwap
  history : List ChatEntry
  cache : Option (List Dict)

/-- AIWorkoutOptimizer.get_chat_response (lines 53-141): sends the prompt
to the completion endpoint and appends the prompt (as a user turn) and the
reply (as an assistant turn) to the conversation history.  The reply is an
oracle indexed by the history length at call time. -/
def chatCall (ai : Nat → String) (st : TurnState) (p : ChatPrompt) : String × TurnState :=
  let reply := ai st.history.length
  (reply,
   { st with history := st.history ++ [⟨"user", .prompt p⟩, ⟨"assistant", .text reply⟩] })

/-- Context pieces produced by IntentService.get_relevant_context that the
modelled handlers read: the extracted exercise name and the resolved
target routine for EXERCISE_SWAP (intent_service.py lines 338-356). -/
structure ResolvedCtx where
  exercise_name : Option String
  target : Option Dict

/-- Output of the state-management block of workout_chat (chat.py lines
32-84): the intent to dispatch on, the context dictionary built on the
bypass path (lines 61-66; None when classification ran — the resolver
result is modelled separately by ResolvedCtx), the pending context after
the block, and whether the classifier was consulted. -/
structure DecideOut where
  intent : String
  builtContext : Option Dict
  pending : Option PendingSwap
  usedClassifier : Bool

/-- State-management block of workout_chat (chat.py lines 32-84).  With a
live EXERCISE_SWAP pending context, a chosen alternative extracted from
the message routes the turn to SUGGESTION_IMPLEMENT without classifying
and builds the handler context from stored fields plus the chosen name;
otherwise the pending context is cleared and the classified intent
(passed in as a value, recorded as consulted via usedClassifier) is used.
After classification, a surviving pending context is cleared unless the
classified intent is SUGGESTION_IMPLEMENT (lines 82-84).  A truthy
non-string suggestion name raises out of the endpoint (modelled as
Except.error). -/
def routerDecide (msg : String) (pending0 : Option PendingSwap)
    (classified : String) : Except Unit DecideOut :=
  match pending0 with
  | some p =>
    if p.type == "EXERCISE_SWAP" then
      match extractChoice p.suggestions msg with
      | .err => .error ()
      | .found c =>
        if !(c == "") then
          .ok ⟨"SUGGESTION_IMPLEMENT",
               some [("routine_id", p.routine_id),
                     ("exercise_to_swap_title", p.exercise_to_swap_title),
                     ("routine_name", p.routine_name),
                     ("chosen_alternative_title", .str c)],
               some p, false⟩
        else
          .ok ⟨classified, none, none, true⟩
      | .notFound => .ok ⟨classified, none, none, true⟩
    else
      .ok ⟨classified, none,
           if !(classified == "SUGGESTION_IMPLEMENT") then none else pending0, true⟩
  | none => .ok ⟨classified, none, none, true⟩

/-- Oracles standing for the remote collaborators of one turn: the intent
classifier (intent_service.classify_intent, a completion call), the
context resolver (get_relevant_context, Hevy reads), the completion
endpoint replies (indexed by history length at call time), whether the
routine write raises, the current-program lookup used by analyze_program,
and the template fetch used by the fallback cache load. -/
structure Oracles where
  classify : String → List ChatEntry → String
  resolve : String → String → ResolvedCtx
  ai : Nat → String
  writeFails : Bool
  programDetails : Option (Dict × List Dict)
  templatesFetch : Except Unit (List Dict)

/-- Python str() of a value as interpolated into an f-string; container
reprs are abbreviated (no modelled string depends on them). -/
def pyStr : JVal → String
  | .null => "None"
  | .str s => s
  | .num n => toString n
  | .bool true => "True"
  | .bool false => "False"
  | .arr _ => "[...]"
  | .obj _ => "[...]"

/-- Intent groups of the dispatch chain (chat.py lines 104, 110, 116). -/
def infoIntents : List String :=
  ["WORKOUT_INFO", "EXERCISE_INFO", "ROUTINE_INFO", "PROGRAM_INFO", "GENERAL_INFO"]

/-- Analysis intents of the dispatch chain. -/
def analysisIntents : List String :=
  ["WORKOUT_ANALYSIS", "PROGRAM_ANALYSIS", "EXERCISE_ANALYSIS", "COMPARATIVE_ANALYSIS"]

/-- Modification intents of the dispatch chain. -/
def modIntents : List String :=
  ["EXERCISE_SWAP", "PROGRAM_CREATE", "ROUTINE_UPDATE", "SUGGESTION_IMPLEMENT"]

/-- get_analysis_response (lines 380-433) at completion-call granularity.
The resolver never stores program_analysis_results, so PROGRAM_ANALYSIS
always takes the on-the-fly analyze_program path (lines 752-816): a
fallback cache load when the class cache is None, then the
current-program lookup — a missing or incomplete program yields an error
text without a completion call, otherwise one completion call produces
the analysis and the response is assembled from the folder title and the
reply (line 414; the doubled final period and the literal backslash-n
separators are in the source).  Other analysis intents make exactly one
completion call. -/
def analysisTurn (o : Oracles) (st : TurnState) (intent msg : String) :
    String × TurnState :=
  if intent == "PROGRAM_ANALYSIS" then
    let st1 : TurnState :=
      if st.cache == none then
        { st with cache := loadTemplatesCache o.templatesFetch st.cache }
      else st
    match o.programDetails with
    | none =>
      ("I tried to analyze the program but encountered an error: Could not retrieve current program data..", st1)
    | some (folder, routines) =>
      if folder.isEmpty || routines.isEmpty then
        ("I tried to analyze the program but encountered an error: Incomplete program data retrieved..", st1)
      else
        let r := chatCall o.ai st1 (.programAnalysisQuery msg)
        ("# Analysis for: " ++ pyStr (dgetD folder "title" (.str "Unknown Program")) ++
           "\\n\\n" ++ r.1, r.2)
  else
    chatCall o.ai st (.analysisQuery intent msg)

/-- History update at the end of workout_chat (chat.py lines 130-135): the
user message is appended when non-empty, then the final response when
non-empty. -/
def finishTurn (msg reply intent : String) (st : TurnState)
    (writes : List WriteCall) : String × String × TurnState × List WriteCall :=
  (reply, intent,
   { st with history := st.history ++
       (if msg == "" then [] else [⟨"user", .text msg⟩]) ++
       (if reply == "" then [] else [⟨"assistant", .text reply⟩]) },
   writes)

/-- Result of one handled turn: the response text, the intent label of the
response payload, the state afterwards and the routine writes issued. -/
structure TurnOut where
  response : String
  intent : String
  state : TurnState
  writes : List WriteCall

/-- Packaging of finishTurn into a TurnOut. -/
def mkTurnOut (r : String × String × TurnState × List WriteCall) : TurnOut :=
  ⟨r.1, r.2.1, r.2.2.1, r.2.2.2⟩

/-- workout_chat (chat.py lines 17-148), one turn: the state-management
block, then the dispatch chain in source order — SUGGESTION_IMPLEMENT to
the modification handler, canned GREETING and UNKNOWN replies with no
completion call, info intents to get_info_response (exactly one completion
call on a context prompt, lines 258-378), analysis intents to
get_analysis_response, the modification intents to
get_modification_response (EXERCISE_SWAP runs the propose phase, the
unimplemented ones make one templated completion call, lines 711-716), and
a final fallback with intent normalized to UNKNOWN — followed by the
history append.  Any exception becomes an HTTP 500 (Except.error).  The
resolver is consulted only on the classification path, mirroring line
80. -/
def workoutChatTurn (o : Oracles) (st0 : TurnState) (msg : String) :
    Except Unit TurnOut :=
  let classified := o.classify msg st0.history
  match routerDecide msg st0.pending classified with
  | .error u => .error u
  | .ok dec =>
    let st1 : TurnState := { st0 with pending := dec.pending }
    let rctx := if dec.usedClassifier then o.resolve dec.intent msg
                else (⟨none, none⟩ : ResolvedCtx)
    if dec.intent == "SUGGESTION_IMPLEMENT" then
      match implementSwap msg st1.cache st1.pending o.writeFails with
      | .error u => .error u
      | .ok m =>
        let r := chatCall o.ai { st1 with pending := m.pending } m.prompt
        .ok (mkTurnOut (finishTurn msg r.1 dec.intent r.2 m.writes))
    else if dec.intent == "GREETING" then
      .ok (mkTurnOut (finishTurn msg
        "Hello! How can I help you with your workouts today?" "GREETING" st1 []))
    else if dec.intent == "UNKNOWN" then
      .ok (mkTurnOut (finishTurn msg
        "Sorry, I\x27m not sure how to help with that. Can you please rephrase or ask about your workouts?"
        "UNKNOWN" st1 []))
    else if infoIntents.contains dec.intent then
      let r := chatCall o.ai st1 (.infoQuery dec.intent msg)
      .ok (mkTurnOut (finishTurn msg r.1 dec.intent r.2 []))
    else if analysisIntents.contains dec.intent then
      let r := analysisTurn o st1 dec.intent msg
      .ok (mkTurnOut (finishTurn msg r.1 dec.intent r.2 []))
    else if modIntents.contains dec.intent then
      if dec.intent == "EXERCISE_SWAP" then
        let m := proposeSwap rctx.exercise_name rctx.target st1.cache st1.pending
        let r := chatCall o.ai { st1 with pending := m.pending } m.prompt
        .ok (mkTurnOut (finishTurn msg r.1 dec.intent r.2 m.writes))
      else
        let r := chatCall o.ai st1 (.modNotImplemented dec.intent msg)
        .ok (mkTurnOut (finishTurn msg r.1 dec.intent r.2 []))
    else
      .ok (mkTurnOut (finishTurn msg
        "Sorry, I encountered an unexpected situation handling your request." "UNKNOWN" st1 []))

/-- POST / of the chat router, as deployed: dependencies.py (lines 19-41)
builds one module-level AIWorkoutOptimizer at import time and
get_ai_optimizer returns that same instance for every request, and the
request body (ChatMessage, chat.py lines 13-15) carries only the message
text — no session or user identifier exists anywhere in the pipeline.
Every request therefore operates on the one shared TurnState. -/
def chatEndpoint (o : Oracles) (server : TurnState) (chat_message : String) :
    Except Unit TurnOut :=
  workoutChatTurn o server chat_message

/-- HevyAPI.get_workouts (hevy_api.py lines 42-93): fetches one raw page
(oracle `w`, raising on a request error, re-raised by the source) and
transforms it into the standard page format with keys data / total / page
/ limit / has_more (lines 82-88).  The items are passed through; the
in-place weight_lbs enrichment (lines 71-79) adds a floating-point field
derived from weight_kg and is orthogonal to pagination, so it is omitted
here, but its traversal still forces the workouts value to be a list (a
non-list raises, propagating out).  The page/page_count comparison
requires integers (otherwise Python raises). -/
def getWorkouts (w : Nat → Except Unit Dict) (limit page : Nat) : Except Unit Dict :=
  match w page with
  | .error u => .error u
  | .ok d =>
    match dgetD d "workouts" (.arr []) with
    | .arr ws =>
      match dgetD d "page_count" (.num 1) with
      | .num pc =>
        .ok [("data", .arr (ws.take limit)),
             ("total", dgetD d "total" (.num ws.length)),
             ("page", dgetD d "page" (.num page)),
             ("limit", .num limit),
             ("has_more", .bool (decide ((page : Int) < pc)))]
      | _ => .error ()
    | _ => .error ()

/-- Loop body of get_all_workouts (lines 95-120), with fuel for the
`while True`.  Each iteration reads `response.get("workouts", [])` and
`response.get("page_count", 1)` from the value returned by get_workouts —
which stores its items under "data" and has no "page_count" key. -/
def getAllWorkoutsGo (w : Nat → Except Unit Dict) :
    Nat → Nat → List JVal → Except Unit (List JVal)
  | 0, _, _ => .error ()
  | fuel + 1, page, acc =>
    match getWorkouts w 100 page with
    | .error u => .error u
    | .ok resp =>
      let wkts := dgetD resp "workouts" (.arr [])
      if !(truthy wkts) then .ok acc
      else
        match wkts with
        | .arr ws =>
          match dgetD resp "page_count" (.num 1) with
          | .num pc =>
            if decide (pc ≤ (page : Int)) then .ok (acc ++ ws)
            else getAllWorkoutsGo w fuel (page + 1) (acc ++ ws)
          | _ => .error ()
        | _ => .error ()

/-- HevyAPI.get_all_workouts: the pagination loop from page 1 with limit
100. -/
def getAllWorkouts (w : Nat → Except Unit Dict) (fuel : Nat) :
    Except Unit (List JVal) :=
  getAllWorkoutsGo w fuel 1 []

/-- HevyAPI.get_routines (lines 123-156): fetches one raw page (oracle
`r`) and builds the standard page format; pageSize is capped at 10, the
total is approximated as page_count times the page size, and any error —
an HTTP failure or a type error in that arithmetic — is caught and turned
into an empty page with has_more False. -/
def getRoutines (r : Nat → Except Unit Dict) (limit page : Nat) : Dict :=
  let pageSize := min limit 10
  let emptyPage : Dict :=
    [("data", .arr []), ("total", .num 0), ("page", .num page),
     ("limit", .num pageSize), ("has_more", .bool false)]
  match r page with
  | .error _ => emptyPage
  | .ok d =>
    match dgetD d "page_count" (.num 1), dgetD d "page" (.num page) with
    | .num pc, .num cp =>
      [("data", dgetD d "routines" (.arr [])),
       ("total", .num (pc * pageSize)),
       ("page", .num cp),
       ("limit", .num pageSize),
       ("has_more", .bool (decide (cp < pc)))]
    | _, _ => emptyPage

/-- Loop body of get_all_routines (lines 158-178), with fuel for the
`while True`: extend with `response["data"]` and stop when
`response["has_more"]` is falsy. -/
def getAllRoutinesGo (r : Nat → Except Unit Dict) :
    Nat → Nat → List JVal → Except Unit (List JVal)
  | 0, _, _ => .error ()
  | fuel + 1, page, acc =>
    let resp := getRoutines r 10 page
    match dgetV resp "data" with
    | .arr ds =>
      if truthy (dgetV resp "has_more") then
        getAllRoutinesGo r fuel (page + 1) (acc ++ ds)
      else .ok (acc ++ ds)
    | _ => .error ()

/-- HevyAPI.get_all_routines: the pagination loop from page 1 with the API
maximum page size. -/
def getAllRoutines (r : Nat → Except Unit Dict) (fuel : Nat) :
    Except Unit (List JVal) :=
  getAllRoutinesGo r fuel 1 []

/-- Methods defined on the AIWorkoutOptimizer class
(ai_workout_optimizer.py): save_conversation_history and
load_conversation_history are not among them, and no other module defines
them, so attribute lookup of either name raises AttributeError. -/
def aiOptimizerMethods : List String :=
  ["__init__", "load_templates_cache", "get_chat_response",
   "clear_conversation_history", "get_conversation_history",
   "get_ai_optimization_insights", "_prepare_ai_context", "_get_ai_insights",
   "_parse_ai_response", "get_info_response", "get_analysis_response",
   "get_modification_response", "chat_about_workout_optimization",
   "analyze_program", "_prepare_program_context", "_get_rep_range",
   "_get_weight_range", "_get_program_analysis", "_parse_program_analysis",
   "_extract_user_goal"]

/-- POST /save of the chat router (chat.py lines 169-184): calls
ai_optimizer.save_conversation_history(filepath); when that attribute does
not exist on the class the AttributeError is caught by the except handler
and returned as an HTTP 500.  The history argument records that the
outcome is the same for every history state. -/
def saveChatHistory (filepath : String) (_history : List ChatEntry) :
    Except (Nat × String) (List (String × String)) :=
  if aiOptimizerMethods.contains "save_conversation_history" then
    .ok [("status", "success"),
         ("message", "Chat history saved to " ++ filepath)]
  else
    .error (500, "Failed to save chat history")

/-- POST /load of the chat router (chat.py lines 186-206): calls
ai_optimizer.load_conversation_history(filepath); a missing attribute
raises AttributeError, which is not FileNotFoundError, so the generic
handler returns an HTTP 500. -/
def loadChatHistory (filepath : String) (_history : List ChatEntry) :
    Except (Nat × String) (List (String × String)) :=
  if aiOptimizerMethods.contains "load_conversation_history" then
    .ok [("status", "success"),
         ("message", "Chat history loaded from " ++ filepath)]
  else
    .error (500, "Failed to load chat history")

/-- Shape of buildUpdated on a snapshot whose entries are all
dictionaries: it succeeds, maps each entry to the replacement exercise or
to the entry with its index field removed, and reports whether any entry
matched the stored title. -/
theorem buildUpdated_eq_map (swapTitle : JVal) (chosen : String) (templateId : JVal)
    (exs : List JVal) (h : ∀ e ∈ exs, ∃ d, e = JVal.obj d) :
    buildUpdated swapTitle chosen templateId exs =
      .ok (exs.map (fun e => match e with
             | .obj d => if dgetV d "title" == swapTitle then newExercise chosen templateId
                         else .obj (dictPop d "index")
             | e => e),
           exs.any (fun e => match e with
             | .obj d => dgetV d "title" == swapTitle
             | _ => false)) := by
  induction exs with
  | nil => rfl
  | cons e rest ih =>
    obtain ⟨d, rfl⟩ := h e (by simp)
    have hrest : ∀ x ∈ rest, ∃ dx, x = JVal.obj dx := fun x hx => h x (by simp [hx])
    rw [buildUpdated, ih hrest]
    by_cases hq : (dgetV d "title" == swapTitle) = true
    · simp [hq]
    · simp only [Bool.not_eq_true] at hq
      simp [hq]

/-- Every implement-phase run that starts from a live EXERCISE_SWAP
context and extracts a chosen name ends with the pending context cleared:
each branch from the validation check onwards either clears it explicitly
or returns through the finally block. -/
theorem implementSwap_found_clears (msg : String) (cache : Option (List Dict))
    (p : PendingSwap) (wf : Bool) (c : String)
    (hty : p.type = "EXERCISE_SWAP")
    (hx : extractChoice p.suggestions msg = .found c) :
    ∃ m, implementSwap msg cache (some p) wf = .ok m ∧ m.pending = none := by
  simp only [implementSwap, hty, hx, beq_self_eq_true, Bool.not_true, Bool.false_eq_true,
    if_false]
  repeat' first
    | exact ⟨_, rfl, rfl⟩
    | split

/-- Cached template for Bench Press, in the shape produced by
get_all_exercise_templates (title / id / primary_muscle_group). -/
def benchT : Dict :=
  [("title", .str "Bench Press"), ("id", .str "tb"),
   ("primary_muscle_group", .str "chest")]

/-- Cached template for Incline Press, same muscle group. -/
def inclineT : Dict :=
  [("title", .str "Incline Press"), ("id", .str "ti"),
   ("primary_muscle_group", .str "chest")]

/-- Snapshot entry for the Bench Press exercise of the routine, with the
transient index field. -/
def benchEntry : JVal :=
  .obj [("title", .str "Bench Press"), ("index", .num 0), ("sets", .arr [])]

/-- Routine dictionary as resolved by the context resolver for the
propose phase. -/
def routineA : Dict :=
  [("id", .str "routineA"), ("title", .str "Push Day"),
   ("exercises", .arr [benchEntry])]

/-- Suggestion entry stored for Incline Press by the propose phase. -/
def inclineSugg : Dict :=
  [("name", .str "Incline Press"), ("id", .str "ti"), ("muscles", .str "chest")]

/-- Pending context created by proposing a swap of Bench Press in
routineA with the single candidate Incline Press. -/
def pendA : PendingSwap :=
  ⟨"EXERCISE_SWAP", .str "routineA", .str "Push Day", .str "Bench Press",
   [inclineSugg], .arr [benchEntry]⟩

/-- Claim C1, counterexample.  The claim asserts that the implement-phase
cache-empty and title-not-found branches leave the PendingSwapContext
unchanged (still live).  On the code both branches return from inside the
try block, so the `finally: self.pending_swap_context = None` at lines
703-705 still runs and the pending context is cleared: with a live
context, an empty cache (first run) or a cache lacking the chosen title
(second run) ends with pending = None, not with the stored context. -/
theorem c1_counterexample :
    implementSwap "use Incline Press" none (some pendA) false =
      .ok ⟨.cacheEmptyImplement "Incline Press", none, []⟩ ∧
    implementSwap "use Incline Press" (some [benchT]) (some pendA) false =
      .ok ⟨.chosenNotInCache "Incline Press", none, []⟩ ∧
    (none : Option PendingSwap) ≠ some pendA :=
  ⟨rfl, rfl, fun h => Option.noConfusion h⟩

/-- Claim C1 (amended): in the implement phase, the only branch that
preserves the pending context is the failed extraction of a chosen name,
which returns before the try block; every branch that extracts a chosen
name — including the cache-empty and title-not-found branches the claim
called transient-retry — ends with the pending context cleared, because
the guaranteed-cleanup finally step also runs on returns from inside the
try block. -/
theorem c1_amended (msg : String) (cache : Option (List Dict))
    (p : PendingSwap) (wf : Bool) (hty : p.type = "EXERCISE_SWAP") :
    (extractChoice p.suggestions msg = .notFound →
       implementSwap msg cache (some p) wf = .ok ⟨.choiceUnclear msg, some p, []⟩) ∧
    (∀ c, extractChoice p.suggestions msg = .found c →
       ∃ m, implementSwap msg cache (some p) wf = .ok m ∧ m.pending = none) := by
  constructor
  · intro hx
    simp [implementSwap, hty, hx]
  · intro c hx
    exact implementSwap_found_clears msg cache p wf c hty hx

/-- Witness for c1_amended at a concrete input: the stored pending swap
for Bench Press, a message from which no choice can be extracted. -/
theorem c1_amended_witness :
    (extractChoice pendA.suggestions "hello there" = .notFound →
       implementSwap "hello there" (some [benchT]) (some pendA) false =
         .ok ⟨.choiceUnclear "hello there", some pendA, []⟩) ∧
    (∀ c, extractChoice pendA.suggestions "hello there" = .found c →
       ∃ m, implementSwap "hello there" (some [benchT]) (some pendA) false =
         .ok m ∧ m.pending = none) :=
  c1_amended "hello there" (some [benchT]) pendA false rfl

/-- Claim C2: on an implement-phase run whose snapshot contains an entry
titled exercise_to_swap_title and whose chosen alternative is found in the
Template Cache with an id, exactly one update_routine call is issued,
under the stored routine id and stored routine title, with the exercise
list obtained from the snapshot by replacing each entry titled
exercise_to_swap_title with the new exercise (the chosen template id and
three empty normal sets, see newExercise) and stripping the index field
from every other entry; the pending context is None afterwards.  The
hypotheses spell out the path to the write: a live EXERCISE_SWAP context,
an extracted non-empty chosen name, truthy stored id and title, a
non-empty cache containing the chosen title, a truthy template id, and a
snapshot that is a list of dictionaries with at least one title match. -/
theorem c2_implement_success_write (msg chosen : String) (ts : List Dict)
    (p : PendingSwap) (tmpl : Dict) (exs : List JVal) (wf : Bool)
    (hty : p.type = "EXERCISE_SWAP")
    (hx : extractChoice p.suggestions msg = .found chosen)
    (hrid : truthy p.routine_id = true)
    (htit : truthy p.exercise_to_swap_title = true)
    (hc : (chosen == "") = false)
    (hts : ts.isEmpty = false)
    (hfind : ts.find? (fun t => dgetV t "title" == .str chosen) = some tmpl)
    (hid : truthy (dgetV tmpl "id") = true)
    (hsnap : p.current_exercises = .arr exs)
    (hobjs : ∀ e ∈ exs, ∃ d, e = JVal.obj d)
    (hhit : exs.any (fun e => match e with
              | .obj d => dgetV d "title" == p.exercise_to_swap_title
              | _ => false) = true) :
    ∃ pr, implementSwap msg (some ts) (some p) wf =
      .ok ⟨pr, none,
           [⟨p.routine_id,
             [("routine", .obj [("title", p.routine_name),
               ("exercises", .arr (exs.map (fun e => match e with
                 | .obj d => if dgetV d "title" == p.exercise_to_swap_title
                             then newExercise chosen (dgetV tmpl "id")
                             else .obj (dictPop d "index")
                 | e => e)))])]⟩]⟩ := by
  have hb := buildUpdated_eq_map p.exercise_to_swap_title chosen (dgetV tmpl "id") exs hobjs
  simp only [implementSwap, hty, hx, hrid, htit, hc, cacheTruthy, hts, hfind, hid, hsnap,
    beq_self_eq_true, Bool.not_true, Bool.not_false, Bool.and_self, Bool.and_true,
    Bool.true_and, Bool.false_eq_true, if_false, if_true, Option.getD_some, hb, hhit,
    ite_true, ite_false]
  cases wf <;> exact ⟨_, rfl⟩

/-- Witness for c2_implement_success_write: the stored Bench Press swap,
the message choosing Incline Press, the two-template cache; the write
replaces the Bench Press entry with the new Incline Press exercise. -/
theorem c2_implement_success_write_witness :
    ∃ pr, implementSwap "use Incline Press" (some [benchT, inclineT]) (some pendA) false =
      .ok ⟨pr, none,
           [⟨pendA.routine_id,
             [("routine", .obj [("title", pendA.routine_name),
               ("exercises", .arr ([benchEntry].map (fun e => match e with
                 | .obj d => if dgetV d "title" == pendA.exercise_to_swap_title
                             then newExercise "Incline Press" (dgetV inclineT "id")
                             else .obj (dictPop d "index")
                 | e => e)))])]⟩]⟩ :=
  c2_implement_success_write "use Incline Press" "Incline Press" [benchT, inclineT]
    pendA inclineT [benchEntry] false rfl rfl rfl rfl rfl rfl rfl rfl rfl
    (fun e he => by
      simp only [List.mem_singleton] at he
      exact ⟨_, he⟩)
    rfl

/-- Claim C5: an implement-phase run that reaches the snapshot scan (live
context, extracted chosen name, validation passed, chosen title found in
the cache with an id, snapshot a list of dictionaries) but finds no entry
titled exercise_to_swap_title issues no routine write, returns the
explanatory stale-snapshot prompt, and clears the pending context. -/
theorem c5_stale_snapshot_no_write (msg chosen : String) (ts : List Dict)
    (p : PendingSwap) (tmpl : Dict) (exs : List JVal) (wf : Bool)
    (hty : p.type = "EXERCISE_SWAP")
    (hx : extractChoice p.suggestions msg = .found chosen)
    (hrid : truthy p.routine_id = true)
    (htit : truthy p.exercise_to_swap_title = true)
    (hc : (chosen == "") = false)
    (hts : ts.isEmpty = false)
    (hfind : ts.find? (fun t => dgetV t "title" == .str chosen) = some tmpl)
    (hid : truthy (dgetV tmpl "id") = true)
    (hsnap : p.current_exercises = .arr exs)
    (hobjs : ∀ e ∈ exs, ∃ d, e = JVal.obj d)
    (hmiss : exs.any (fun e => match e with
              | .obj d => dgetV d "title" == p.exercise_to_swap_title
              | _ => false) = false) :
    implementSwap msg (some ts) (some p) wf =
      .ok ⟨.swapTargetMissing p.exercise_to_swap_title p.routine_name, none, []⟩ := by
  have hb := buildUpdated_eq_map p.exercise_to_swap_title chosen (dgetV tmpl "id") exs hobjs
  simp only [implementSwap, hty, hx, hrid, htit, hc, cacheTruthy, hts, hfind, hid, hsnap,
    beq_self_eq_true, Bool.not_true, Bool.not_false, Bool.and_self, Bool.and_true,
    Bool.true_and, Bool.false_eq_true, if_false, if_true, Option.getD_some, hb, hmiss,
    ite_true, ite_false]

/-- Witness for c5_stale_snapshot_no_write: the stored context whose
snapshot only holds a Squat entry, so Bench Press is no longer present. -/
theorem c5_stale_snapshot_no_write_witness :
    implementSwap "use Incline Press" (some [benchT, inclineT])
      (some ⟨"EXERCISE_SWAP", .str "routineA", .str "Push Day", .str "Bench Press",
             [inclineSugg], .arr [.obj [("title", .str "Squat")]]⟩) false =
      .ok ⟨.swapTargetMissing (.str "Bench Press") (.str "Push Day"), none, []⟩ :=
  c5_stale_snapshot_no_write "use Incline Press" "Incline Press" [benchT, inclineT]
    _ inclineT [.obj [("title", .str "Squat")]] false rfl rfl rfl rfl rfl rfl rfl rfl rfl
    (fun e he => by
      simp only [List.mem_singleton] at he
      exact ⟨_, he⟩)
    rfl

/-- Claim C3, counterexample.  The claim asserts that every propose-phase
request for an exercise with a known muscle group and at least one
same-muscle alternative ends in PENDING_SWAP with a stored context.  On
the code the context is stored only when the resolved target routine
details are also truthy (line 528); here Bench Press has the known muscle
group chest and the alternative Incline Press — visible in the emitted
suggestion prompt — yet with no target routine details in the request
context the handler ends with pending = None and no context is created. -/
theorem c3_counterexample :
    proposeSwap (some "Bench Press") none (some [benchT, inclineT]) none =
      ⟨.swapSuggestions "Bench Press" (.str "the routine") (.str "chest") [inclineSugg],
       none, []⟩ ∧
    (∀ q : PendingSwap,
      (proposeSwap (some "Bench Press") none (some [benchT, inclineT]) none).pending ≠ some q) :=
  ⟨rfl, fun _ h => Option.noConfusion h⟩

/-- Claim C3 (amended): on a propose-phase request whose context carries
truthy target routine details in addition to the claim hypotheses — a
truthy exercise name, a first cache entry with that title whose muscle
group is truthy, and a non-empty list of same-muscle alternatives
excluding that title — the handler stores a pending context holding the
routine id and title from the target details, the exercise-to-swap title,
the snapshot of the routine exercises, and the first five alternatives;
the suggestions length is min(5, number of alternatives). -/
theorem c3_amended (name : String) (td : Dict) (ts : List Dict)
    (p0 : Option PendingSwap) (t0 : Dict)
    (hn : (name == "") = false)
    (htd : td.isEmpty = false)
    (hts : ts.isEmpty = false)
    (hfind : ts.find? (fun t => dgetV t "title" == .str name) = some t0)
    (hmu : truthy (dgetV t0 "primary_muscle_group") = true)
    (halt : (ts.filter (fun t =>
        dgetV t "primary_muscle_group" == dgetV t0 "primary_muscle_group" &&
        !(dgetV t "title" == .str name))).isEmpty = false) :
    proposeSwap (some name) (some td) (some ts) p0 =
      ⟨.swapSuggestions name (dgetD td "title" (.str "the routine"))
         (dgetV t0 "primary_muscle_group")
         (((ts.filter (fun t =>
             dgetV t "primary_muscle_group" == dgetV t0 "primary_muscle_group" &&
             !(dgetV t "title" == .str name))).map
            (fun t => [("name", dgetV t "title"), ("id", dgetV t "id"),
                       ("muscles", dgetV t "primary_muscle_group")])).take 5),
       some ⟨"EXERCISE_SWAP", dgetV td "id", dgetD td "title" (.str "the routine"),
             .str name,
             ((ts.filter (fun t =>
                 dgetV t "primary_muscle_group" == dgetV t0 "primary_muscle_group" &&
                 !(dgetV t "title" == .str name))).map
               (fun t => [("name", dgetV t "title"), ("id", dgetV t "id"),
                          ("muscles", dgetV t "primary_muscle_group")])).take 5,
             dgetD td "exercises" (.arr [])⟩,
       []⟩ ∧
    (((ts.filter (fun t =>
        dgetV t "primary_muscle_group" == dgetV t0 "primary_muscle_group" &&
        !(dgetV t "title" == .str name))).map
       (fun t => [("name", dgetV t "title"), ("id", dgetV t "id"),
                  ("muscles", dgetV t "primary_muscle_group")])).take 5).length =
      min 5 (ts.filter (fun t =>
        dgetV t "primary_muscle_group" == dgetV t0 "primary_muscle_group" &&
        !(dgetV t "title" == .str name))).length := by
  constructor
  · have hmap : ((ts.filter (fun t =>
        dgetV t "primary_muscle_group" == dgetV t0 "primary_muscle_group" &&
        !(dgetV t "title" == .str name))).map
       (fun t => [("name", dgetV t "title"), ("id", dgetV t "id"),
                  ("muscles", dgetV t "primary_muscle_group")])).isEmpty = false := by
      simpa [List.isEmpty_iff] using halt
    simp only [proposeSwap, hn, htd, hts, cacheTruthy, hfind, hmu, hmap,
      Bool.not_true, Bool.not_false, Bool.false_eq_true, if_false, if_true,
      Option.getD_some, ite_true, ite_false, Bool.and_self]
  · rw [List.length_take, List.length_map]

/-- Witness for c3_amended: the Bench Press proposal with the resolved
routineA details and the two-template cache; a pending context with the
single Incline Press suggestion is stored. -/
theorem c3_amended_witness :
    proposeSwap (some "Bench Press") (some routineA) (some [benchT, inclineT]) none =
      ⟨.swapSuggestions "Bench Press" (dgetD routineA "title" (.str "the routine"))
         (dgetV benchT "primary_muscle_group")
         ((([benchT, inclineT].filter (fun t =>
             dgetV t "primary_muscle_group" == dgetV benchT "primary_muscle_group" &&
             !(dgetV t "title" == .str "Bench Press"))).map
            (fun t => [("name", dgetV t "title"), ("id", dgetV t "id"),
                       ("muscles", dgetV t "primary_muscle_group")])).take 5),
       some ⟨"EXERCISE_SWAP", dgetV routineA "id",
             dgetD routineA "title" (.str "the routine"), .str "Bench Press",
             (([benchT, inclineT].filter (fun t =>
                 dgetV t "primary_muscle_group" == dgetV benchT "primary_muscle_group" &&
                 !(dgetV t "title" == .str "Bench Press"))).map
               (fun t => [("name", dgetV t "title"), ("id", dgetV t "id"),
                          ("muscles", dgetV t "primary_muscle_group")])).take 5,
             dgetD routineA "exercises" (.arr [])⟩,
       []⟩ ∧
    ((([benchT, inclineT].filter (fun t =>
        dgetV t "primary_muscle_group" == dgetV benchT "primary_muscle_group" &&
        !(dgetV t "title" == .str "Bench Press"))).map
       (fun t => [("name", dgetV t "title"), ("id", dgetV t "id"),
                  ("muscles", dgetV t "primary_muscle_group")])).take 5).length =
      min 5 ([benchT, inclineT].filter (fun t =>
        dgetV t "primary_muscle_group" == dgetV benchT "primary_muscle_group" &&
        !(dgetV t "title" == .str "Bench Press"))).length :=
  c3_amended "Bench Press" routineA [benchT, inclineT] none benchT
    rfl rfl rfl rfl rfl rfl

/-- Claim C10: load_templates_cache fetches only in the None state — for
any already-set cache value, the empty-list failure sentinel included, a
later call leaves the cache unchanged; a failed load in the None state
pins the sentinel; and a swap proposal (with an extracted exercise name)
against the sentinel takes the cache-empty failure branch, leaving the
pending context untouched and storing nothing. -/
theorem c10_cache_pins_empty (fetch : Except Unit (List Dict)) (c : List Dict)
    (name : String) (target : Option Dict) (p0 : Option PendingSwap)
    (hn : (name == "") = false) :
    loadTemplatesCache fetch (some c) = some c ∧
    loadTemplatesCache (Except.error ()) none = some [] ∧
    proposeSwap (some name) target (some []) p0 = ⟨.cacheEmptyPropose name, p0, []⟩ := by
  refine ⟨rfl, rfl, ?_⟩
  simp [proposeSwap, hn, cacheTruthy]

/-- Witness for c10_cache_pins_empty at a concrete input. -/
theorem c10_cache_pins_empty_witness :
    loadTemplatesCache (Except.ok [benchT]) (some []) = some [] ∧
    loadTemplatesCache (Except.error ()) none = some [] ∧
    proposeSwap (some "Bench Press") (some routineA) (some []) none =
      ⟨.cacheEmptyPropose "Bench Press", none, []⟩ :=
  c10_cache_pins_empty (Except.ok [benchT]) [] "Bench Press" (some routineA) none rfl

/-- Claim C4: with a live EXERCISE_SWAP pending context, a turn whose
message yields a chosen name (suggestion-name substring match or regex
fallback, with a truthy result) is routed as SUGGESTION_IMPLEMENT without
consulting the classifier, and the handler context is built from the
stored routine id, swap title and routine name plus the chosen name;
a turn that yields no chosen name (or an empty one) clears the pending
context and proceeds with the classified intent — and whatever that
intent is, the state-management block ends with no pending context. -/
theorem c4_precheck_routing (msg : String) (p : PendingSwap) (classified : String)
    (hty : p.type = "EXERCISE_SWAP") :
    (∀ c, extractChoice p.suggestions msg = .found c → (c == "") = false →
       routerDecide msg (some p) classified =
         .ok ⟨"SUGGESTION_IMPLEMENT",
              some [("routine_id", p.routine_id),
                    ("exercise_to_swap_title", p.exercise_to_swap_title),
                    ("routine_name", p.routine_name),
                    ("chosen_alternative_title", .str c)],
              some p, false⟩) ∧
    (extractChoice p.suggestions msg = .notFound ∨
       extractChoice p.suggestions msg = .found "" →
       routerDecide msg (some p) classified = .ok ⟨classified, none, none, true⟩) := by
  constructor
  · intro c hx hc
    simp [routerDecide, hty, hx, hc]
  · rintro (hx | hx) <;> simp [routerDecide, hty, hx]

/-- Witness for c4_precheck_routing: the stored Bench Press swap and the
message choosing Incline Press. -/
theorem c4_precheck_routing_witness :
    (∀ c, extractChoice pendA.suggestions "use Incline Press" = .found c →
       (c == "") = false →
       routerDecide "use Incline Press" (some pendA) "UNKNOWN" =
         .ok ⟨"SUGGESTION_IMPLEMENT",
              some [("routine_id", pendA.routine_id),
                    ("exercise_to_swap_title", pendA.exercise_to_swap_title),
                    ("routine_name", pendA.routine_name),
                    ("chosen_alternative_title", .str c)],
              some pendA, false⟩) ∧
    (extractChoice pendA.suggestions "use Incline Press" = .notFound ∨
       extractChoice pendA.suggestions "use Incline Press" = .found "" →
       routerDecide "use Incline Press" (some pendA) "UNKNOWN" =
         .ok ⟨"UNKNOWN", none, none, true⟩) :=
  c4_precheck_routing "use Incline Press" pendA "UNKNOWN" rfl

/-- Oracles of the C6 counterexample turn: the classifier labels the
message SUGGESTION_IMPLEMENT, the completion endpoint answers with a
fixed apology. -/
def c6oracles : Oracles :=
  ⟨fun _ _ => "SUGGESTION_IMPLEMENT", fun _ _ => ⟨none, none⟩,
   fun _ => "I have no pending swap to apply.", false, none, .error ()⟩

/-- Claim C6, counterexample.  The claim asserts that every handled turn
with a non-empty message and non-empty response grows the history by
exactly two entries (the user message then the response).  On the code,
get_chat_response itself appends the internal prompt and the reply (lines
134-135), so this turn — routed to the modification handler — appends
four entries: the constructed prompt as a user turn, the reply, and only
then the user message and the final response appended by the router. -/
theorem c6_counterexample :
    ∃ out, workoutChatTurn c6oracles ⟨none, [], none⟩ "ok apply it" = .ok out ∧
      out.response = "I have no pending swap to apply." ∧
      out.state.history =
        [⟨"user", .prompt .noPendingSwap⟩,
         ⟨"assistant", .text "I have no pending swap to apply."⟩,
         ⟨"user", .text "ok apply it"⟩,
         ⟨"assistant", .text "I have no pending swap to apply."⟩] ∧
      out.state.history.length ≠ ([] : List ChatEntry).length + 2 :=
  ⟨_, rfl, rfl, rfl, by decide⟩

/-- Claim C6 (amended): the router appends the user message and, when
non-empty, the final response at the end of the turn; turns answered
without a completion call grow the history by exactly these two entries
(shown for GREETING), while turns whose handler calls the completion
endpoint additionally append one internal prompt/reply pair per call
before them (shown for a SUGGESTION_IMPLEMENT-classified turn with no
pending context: four entries). -/
theorem c6_amended (o : Oracles) (st : TurnState) (msg : String)
    (hp : st.pending = none) (hm : (msg == "") = false) :
    (o.classify msg st.history = "GREETING" →
       workoutChatTurn o st msg =
         .ok ⟨"Hello! How can I help you with your workouts today?", "GREETING",
              ⟨none,
               st.history ++
                 [⟨"user", .text msg⟩,
                  ⟨"assistant", .text "Hello! How can I help you with your workouts today?"⟩],
               st.cache⟩,
              []⟩) ∧
    (o.classify msg st.history = "SUGGESTION_IMPLEMENT" →
       (o.ai st.history.length == "") = false →
       workoutChatTurn o st msg =
         .ok ⟨o.ai st.history.length, "SUGGESTION_IMPLEMENT",
              ⟨none,
               st.history ++
                 [⟨"user", .prompt .noPendingSwap⟩,
                  ⟨"assistant", .text (o.ai st.history.length)⟩,
                  ⟨"user", .text msg⟩,
                  ⟨"assistant", .text (o.ai st.history.length)⟩],
               st.cache⟩,
              []⟩) := by
  constructor
  · intro hcl
    simp [workoutChatTurn, routerDecide, hp, hcl, chatCall, finishTurn, mkTurnOut, hm]
  · intro hcl hai
    simp [workoutChatTurn, routerDecide, hp, hcl, chatCall, finishTurn, mkTurnOut,
      implementSwap, hm, hai]

/-- Witness for c6_amended: a state with empty history and a greeting
classifier. -/
theorem c6_amended_witness :
    ((fun (_ : String) (_ : List ChatEntry) => "GREETING") "hi" ([] : List ChatEntry) = "GREETING" →
       workoutChatTurn
         ⟨fun _ _ => "GREETING", fun _ _ => ⟨none, none⟩, fun _ => "r", false, none, .error ()⟩
         ⟨none, [], none⟩ "hi" =
         .ok ⟨"Hello! How can I help you with your workouts today?", "GREETING",
              ⟨none,
               [] ++
                 [⟨"user", .text "hi"⟩,
                  ⟨"assistant", .text "Hello! How can I help you with your workouts today?"⟩],
               none⟩,
              []⟩) ∧
    ((fun (_ : String) (_ : List ChatEntry) => "GREETING") "hi" ([] : List ChatEntry) = "SUGGESTION_IMPLEMENT" →
       ((fun (_ : Nat) => "r") ([] : List ChatEntry).length == "") = false →
       workoutChatTurn
         ⟨fun _ _ => "GREETING", fun _ _ => ⟨none, none⟩, fun _ => "r", false, none, .error ()⟩
         ⟨none, [], none⟩ "hi" =
         .ok ⟨(fun (_ : Nat) => "r") ([] : List ChatEntry).length, "SUGGESTION_IMPLEMENT",
              ⟨none,
               [] ++
                 [⟨"user", .prompt .noPendingSwap⟩,
                  ⟨"assistant", .text ((fun (_ : Nat) => "r") ([] : List ChatEntry).length)⟩,
                  ⟨"user", .text "hi"⟩,
                  ⟨"assistant", .text ((fun (_ : Nat) => "r") ([] : List ChatEntry).length)⟩],
               none⟩,
              []⟩) :=
  c6_amended
    ⟨fun _ _ => "GREETING", fun _ _ => ⟨none, none⟩, fun _ => "r", false, none, .error ()⟩
    ⟨none, [], none⟩ "hi" rfl rfl

/-- Oracles of the C9 scenario: the classifier labels the first message
EXERCISE_SWAP and everything else UNKNOWN; the resolver finds Bench Press
and routineA for the swap request. -/
def c9oracles : Oracles :=
  ⟨fun m _ => if m == "swap Bench Press please" then "EXERCISE_SWAP" else "UNKNOWN",
   fun i _ => if i == "EXERCISE_SWAP" then ⟨some "Bench Press", some routineA⟩
              else ⟨none, none⟩,
   fun _ => "ok", false, none, .error ()⟩

/-- Claim C9, counterexample.  The claim asserts session-scoped state:
handling a turn for one conversation never reads or modifies the pending
context observed by a different conversation.  On the code,
dependencies.py builds one module-level AIWorkoutOptimizer singleton
returned for every request, and the request body carries no session or
user identity, so all conversations share one pending slot: after a first
request proposes the Bench Press swap (storing pendA in the shared slot),
a second request — from any client — saying "use Incline Press" is routed
as SUGGESTION_IMPLEMENT off that stored context (the classifier itself
labels it UNKNOWN), issues the write against the first request's routine,
and clears the shared slot. -/
theorem c9_counterexample :
    ∃ out1 out2,
      chatEndpoint c9oracles ⟨none, [], some [benchT, inclineT]⟩
        "swap Bench Press please" = .ok out1 ∧
      out1.state.pending = some pendA ∧
      chatEndpoint c9oracles out1.state "use Incline Press" = .ok out2 ∧
      out2.intent = "SUGGESTION_IMPLEMENT" ∧
      out2.writes =
        [⟨.str "routineA",
          [("routine", .obj [("title", .str "Push Day"),
            ("exercises", .arr [newExercise "Incline Press" (.str "ti")])])]⟩] ∧
      out2.state.pending = none ∧
      c9oracles.classify "use Incline Press" out1.state.history = "UNKNOWN" :=
  ⟨_, _, rfl, rfl, rfl, rfl, rfl, rfl, rfl⟩

/-- Claim C9 (amended): the pending-swap slot is process-wide, not
session-scoped — every request operates on the one singleton state, and a
turn arriving while the shared slot holds a live EXERCISE_SWAP context
whose suggestions match the message is resolved from that slot alone: its
outcome is identical under any classifier and context-resolver oracles
(only the completion replies and the write outcome matter), and it is
routed as SUGGESTION_IMPLEMENT regardless of who created the pending
context. -/
theorem c9_amended (o o2 : Oracles) (st : TurnState) (p : PendingSwap)
    (msg c : String)
    (hp : st.pending = some p) (hty : p.type = "EXERCISE_SWAP")
    (hx : extractChoice p.suggestions msg = .found c) (hc : (c == "") = false)
    (hai : o.ai = o2.ai) (hw : o.writeFails = o2.writeFails) :
    workoutChatTurn o st msg = workoutChatTurn o2 st msg ∧
    ∃ out, workoutChatTurn o st msg = .ok out ∧
      out.intent = "SUGGESTION_IMPLEMENT" := by
  have hclear := implementSwap_found_clears msg st.cache p o.writeFails c hty hx
  obtain ⟨m, hm, -⟩ := hclear
  constructor
  · simp [workoutChatTurn, routerDecide, hp, hty, hx, hc, hai, hw]
  · simp only [workoutChatTurn, routerDecide, hp, hty, hx, hc, beq_self_eq_true,
      Bool.not_true, Bool.not_false, Bool.false_eq_true, if_false, if_true,
      ite_true, ite_false, hm]
    exact ⟨_, rfl, rfl⟩

/-- Witness for c9_amended: two oracle sets that classify the message
differently (EXERCISE_SWAP versus GREETING) produce the same turn, routed
as SUGGESTION_IMPLEMENT off the shared pending slot. -/
theorem c9_amended_witness :
    workoutChatTurn
      ⟨fun _ _ => "EXERCISE_SWAP", fun _ _ => ⟨none, none⟩, fun _ => "ok", false, none, .error ()⟩
      ⟨some pendA, [], some [benchT, inclineT]⟩ "use Incline Press" =
    workoutChatTurn
      ⟨fun _ _ => "GREETING", fun _ _ => ⟨some "x", some routineA⟩, fun _ => "ok", false, none, .error ()⟩
      ⟨some pendA, [], some [benchT, inclineT]⟩ "use Incline Press" ∧
    ∃ out,
      workoutChatTurn
        ⟨fun _ _ => "EXERCISE_SWAP", fun _ _ => ⟨none, none⟩, fun _ => "ok", false, none, .error ()⟩
        ⟨some pendA, [], some [benchT, inclineT]⟩ "use Incline Press" = .ok out ∧
      out.intent = "SUGGESTION_IMPLEMENT" :=
  c9_amended
    ⟨fun _ _ => "EXERCISE_SWAP", fun _ _ => ⟨none, none⟩, fun _ => "ok", false, none, .error ()⟩
    ⟨fun _ _ => "GREETING", fun _ _ => ⟨some "x", some routineA⟩, fun _ => "ok", false, none, .error ()⟩
    ⟨some pendA, [], some [benchT, inclineT]⟩ pendA "use Incline Press" "Incline Press"
    rfl rfl rfl rfl rfl rfl

/-- Claim C7: the history export and import endpoints always fail — the
AIWorkoutOptimizer class defines no save_conversation_history or
load_conversation_history method (see aiOptimizerMethods, the list of
methods the class does define), so POST /save and POST /load raise
AttributeError into their except handlers and return HTTP 500 for every
filepath and every history state; the spec instead says export succeeds
with a success status and import restores the history. -/
theorem c7_history_endpoints_always_fail (filepath : String)
    (history : List ChatEntry) :
    saveChatHistory filepath history = .error (500, "Failed to save chat history") ∧
    loadChatHistory filepath history = .error (500, "Failed to load chat history") :=
  ⟨rfl, rfl⟩

/-- Remote workouts source of the C8 run: page 1 carries one workout and
page_count 1. -/
def c8WorkoutsSrc : Nat → Except Unit Dict := fun p =>
  if p == 1 then
    .ok [("workouts", .arr [.obj [("id", .str "w1"), ("title", .str "Morning Workout")]]),
         ("page_count", .num 1), ("page", .num 1)]
  else
    .ok [("workouts", .arr []), ("page_count", .num 1), ("page", .num p)]

/-- Remote routines source of the C8 run: two pages of one routine each,
page_count 2. -/
def c8RoutinesSrc : Nat → Except Unit Dict := fun p =>
  if p == 1 then
    .ok [("routines", .arr [.obj [("id", .str "r1"), ("title", .str "Upper A")]]),
         ("page_count", .num 2), ("page", .num 1)]
  else
    .ok [("routines", .arr [.obj [("id", .str "r2"), ("title", .str "Lower A")]]),
         ("page_count", .num 2), ("page", .num 2)]

/-- Claim C8: get_workouts returns the (non-empty) first page under the
"data" key of its standard format, yet get_all_workouts returns the empty
list on the same source — its loop reads the "workouts" and "page_count"
keys, which the transformed response does not carry, so it sees an empty
item list and stops at once, contradicting both the claim and its own
docstring; get_all_routines, looping on has_more as the claim states,
returns the concatenation of both pages on an analogous source. -/
theorem c8_get_all_workouts_drops_items :
    getWorkouts c8WorkoutsSrc 100 1 =
      .ok [("data", .arr [.obj [("id", .str "w1"), ("title", .str "Morning Workout")]]),
           ("total", .num 1), ("page", .num 1), ("limit", .num 100),
           ("has_more", .bool false)] ∧
    getAllWorkouts c8WorkoutsSrc 5 = .ok [] ∧
    getAllRoutines c8RoutinesSrc 5 =
      .ok [.obj [("id", .str "r1"), ("title", .str "Upper A")],
           .obj [("id", .str "r2"), ("title", .str "Lower A")]] :=
  ⟨rfl, rfl, rfl⟩
